import Mathlib

/-!
Verification of the DevToolkit gen_ai client library against its
specification.  The Python modules under `gen_ai/` are shallowly embedded:
pure request-building and classification code becomes Lean functions,
HTTP transport is abstracted as an explicit outcome datum fed to the
embedded control flow, and Python dict/list aliasing (where it matters)
is made explicit with a small store of mutable list objects.
-/

/-! ## Error model (`gen_ai/errors.py`) -/

/-- `APIError.ERROR_CODES`: the fixed table mapping common HTTP status
codes to their documented meanings. -/
def ERROR_CODES : List (Int × String) :=
  [ (400, "Bad Request - The request was malformed or contains invalid parameters"),
    (401, "Unauthorized - Authentication failed, check your API key"),
    (403, "Forbidden - You don't have permission to access this resource"),
    (404, "Not Found - The requested endpoint does not exist"),
    (429, "Too Many Requests - Rate limit exceeded, try again later"),
    (500, "Internal Server Error - Server error, try again later"),
    (502, "Bad Gateway - Gateway error, try again later"),
    (503, "Service Unavailable - Server temporarily unavailable, try again later"),
    (504, "Gateway Timeout - Request timed out, try again later") ]

/-- Python truthiness of the optional integer `status_code` field:
`None` and `0` are falsy, every other integer is truthy.  This is the
test performed by `if not self.status_code`. -/
def statusTruthy : Option Int → Bool
  | none => false
  | some c => c != 0

/-- `APIError._get_error_type`: map a status code to a human-readable
error type.  A falsy status code (absent or `0`) yields
`"Unknown error"`; known codes use `ERROR_CODES`; any other code yields
`"HTTP Error {code}"`. -/
def getErrorType (statusCode : Option Int) : String :=
  if statusTruthy statusCode then
    match statusCode with
    | none => "Unknown error"
    | some c =>
      match ERROR_CODES.lookup c with
      | some s => s
      | none => "HTTP Error " ++ toString c
  else "Unknown error"

/-- `APIError._get_suggestion`: troubleshooting suggestion chosen by the
status code, mirroring the if/elif chain of the source. -/
def getSuggestion (statusCode : Option Int) : String :=
  if statusTruthy statusCode then
    match statusCode with
    | none => "Check your network connection and API endpoint URL"
    | some c =>
      if c = 400 then "Check the request parameters and payload format"
      else if c = 401 ∨ c = 403 then "Verify your API key and permissions"
      else if c = 404 then "Verify the API endpoint URL"
      else if c = 429 then "Wait before sending more requests or implement rate limiting"
      else if 500 ≤ c then "Try again later or contact the API provider"
      else ""
  else "Check your network connection and API endpoint URL"

/-- The dictionary produced by `APIError.get_details` (and stored by the
adapters as `error_details`).  The parsing-error and processing-error
dictionaries built inline by the adapters omit the `status_code` key;
that absence is modelled as `none`. -/
structure ErrorDetail where
  url : String
  method : String
  statusCode : Option Int
  errorType : String
  message : String
  suggestion : String
deriving Repr, DecidableEq

/-- `APIError.get_details` for an `APIError(url, status_code, message, method)`. -/
def apiErrorDetails (url : String) (statusCode : Option Int) (message : String)
    (method : String) : ErrorDetail :=
  { url := url, method := method, statusCode := statusCode,
    errorType := getErrorType statusCode, message := message,
    suggestion := getSuggestion statusCode }

/-- The human-readable exception message assembled by `APIError.__init__`:
the base segment always, the status-code segment only for a truthy
status code, the message segment only for a non-empty message, the
suggestion segment only for a non-empty suggestion. -/
def apiErrorMsg (url : String) (statusCode : Option Int) (message : String)
    (method : String) : String :=
  let errorType := getErrorType statusCode
  let suggestion := getSuggestion statusCode
  let m0 := "API " ++ method ++ " request to '" ++ url ++ "' failed"
  let m1 := if statusTruthy statusCode then
      m0 ++ " with status code " ++ toString (statusCode.getD 0) ++ " (" ++ errorType ++ ")"
    else m0
  let m2 := if message ≠ "" then m1 ++ ": " ++ message else m1
  if suggestion ≠ "" then m2 ++ ". " ++ suggestion else m2

/-! ## Media and message utilities (`gen_ai/utils.py`)

The local filesystem is abstracted as two predicates `fsExists` and
`fsIsFile` (for `os.path.exists` / `os.path.isfile`) and a reader
`readFile` returning the bytes of a file. -/

/-- The `missing_images` list collected by `validate_image_paths`: a path
is kept when `os.path.exists` fails, or when it exists but
`os.path.isfile` fails, in input order. -/
def missingImages (fsExists fsIsFile : String → Bool) (imagePaths : List String) :
    List String :=
  imagePaths.filter (fun p => if !fsExists p then true else !fsIsFile p)

/-- `validate_image_paths`: an empty (falsy) list is returned immediately;
otherwise the missing/non-regular paths are collected and, if any, a
`FileNotFoundError` carrying all of them in one message is raised
(modelled as `Except.error` on the message); else the input list is
returned unchanged. -/
def validate_image_paths (fsExists fsIsFile : String → Bool)
    (imagePaths : List String) : Except String (List String) :=
  if imagePaths = [] then .ok []
  else
    let missing := missingImages fsExists fsIsFile imagePaths
    if missing = [] then .ok imagePaths
    else .error ("The following image files were not found: " ++
      String.intercalate ", " missing)

/-- A Bedrock Converse content block: either `{"text": s}` or
`{"image": {"format": f, "source": {"bytes": b}}}`. -/
inductive BBlock where
  | text (s : String)
  | image (format : String) (bytes : List Nat)
deriving Repr, DecidableEq

/-- The Python value held under a message's `"content"` key, as the code
discriminates it: a plain string, a list of content blocks, or any other
shape. -/
inductive PyContent where
  | str (s : String)
  | blocks (bs : List BBlock)
  | other
deriving Repr, DecidableEq

/-- A chat message dictionary `{"role": r, "content": c}`. -/
structure BMessage where
  role : String
  content : PyContent
deriving Repr, DecidableEq

/-- Index of the last message whose role is `"user"`, scanning from the
end of the list, as the `for i in range(len(messages)-1, -1, -1)` loop
does. -/
def lastUserIdx : List BMessage → Option Nat
  | [] => none
  | m :: ms =>
    match lastUserIdx ms with
    | some i => some (i + 1)
    | none => if m.role = "user" then some 0 else none

/-- Content normalization of `format_messages_for_bedrock`: a plain
string becomes a one-element text block list; a non-list shape becomes
`[{"text": ""}]`; a block list is kept. -/
def normalizeBedrockContent : PyContent → List BBlock
  | .str s => [.text s]
  | .blocks bs => bs
  | .other => [.text ""]

/-- `format_messages_for_bedrock` (value-level model): with no image
paths the (copied) messages are returned as they are; otherwise the last
user message (appended fresh when none exists) has its content
normalized to a block list and one `image` block per path appended, in
input order, each holding the bytes read from that path with format
`"jpeg"`. -/
def format_messages_for_bedrock (readFile : String → List Nat)
    (messages : List BMessage) (imagePaths : List String) : List BMessage :=
  if imagePaths = [] then messages
  else
    let (msgs, idx) : List BMessage × Nat :=
      match lastUserIdx messages with
      | some i => (messages, i)
      | none => (messages ++ [⟨"user", .blocks [.text ""]⟩], messages.length)
    match msgs.get? idx with
    | none => msgs
    | some m =>
      msgs.set idx ⟨m.role, .blocks (normalizeBedrockContent m.content ++
        imagePaths.map (fun p => .image "jpeg" (readFile p)))⟩

/-! ## Request payloads (`gen_ai/openai/stream_model.py`)

A JSON payload is modelled as an insertion-ordered Python dict: an
association list with set/update semantics. -/

/-- A JSON value as far as the payload keys need discriminating. -/
inductive JVal where
  | bool (b : Bool)
  | int (n : Int)
  | str (s : String)
  | other
deriving Repr, DecidableEq

/-- `d[k] = v` on a Python dict: overwrite in place when the key is
present, append otherwise. -/
def dictSet (d : List (String × JVal)) (k : String) (v : JVal) :
    List (String × JVal) :=
  if d.any (fun kv => kv.1 = k) then
    d.map (fun kv => if kv.1 = k then (k, v) else kv)
  else d ++ [(k, v)]

/-- `d.update(kwargs)`: set every key of `kwargs` in order. -/
def dictUpdate (d kwargs : List (String × JVal)) : List (String × JVal) :=
  kwargs.foldl (fun acc kv => dictSet acc kv.1 kv.2) d

/-- Dict lookup, first (and only) binding of the key. -/
def dictGet (d : List (String × JVal)) (k : String) : Option JVal :=
  (d.find? (fun kv => kv.1 = k)).map (fun kv => kv.2)

/-- The payload built by `generate_response_stream`: defaults with
`"stream": True`, then `payload["stream"] = True` again, then
`payload.update(kwargs)` with the caller's keyword arguments. -/
def streamCompletionPayload (modelName query : String)
    (kwargs : List (String × JVal)) : List (String × JVal) :=
  let payload := [("model", JVal.str modelName), ("prompt", JVal.str query),
    ("max_tokens", JVal.int 256), ("temperature", JVal.int 0),
    ("n", JVal.int 1), ("stream", JVal.bool true)]
  let payload := dictSet payload "stream" (JVal.bool true)
  dictUpdate payload kwargs

/-- The payload built by `generate_chat_response_streaming`: same
defaults over `"messages"` instead of `"prompt"`, then the same
`payload["stream"] = True` followed by `payload.update(kwargs)`. -/
def streamChatPayload (modelName : String)
    (kwargs : List (String × JVal)) : List (String × JVal) :=
  let payload := [("model", JVal.str modelName), ("messages", JVal.other),
    ("max_tokens", JVal.int 256), ("temperature", JVal.int 0),
    ("n", JVal.int 1), ("stream", JVal.bool true)]
  let payload := dictSet payload "stream" (JVal.bool true)
  dictUpdate payload kwargs

/-! ## Completion and chat calls (`gen_ai/openai/invoke_model.py`)

The HTTP transport is abstracted as an outcome datum: either a 2xx
response whose body does or does not carry the expected text, a non-2xx
response (`raise_for_status` raises a `RequestException` carrying the
response), or a connection-level failure with no response attached. -/

/-- The body of a 2xx response, as far as the unwrapping code
discriminates it: `withText t` when `choices[0]` (resp.
`choices[0].message`) carries the text, `malformed` when the key/index
chain raises `KeyError`/`IndexError`. -/
inductive RespBody where
  | withText (t : String)
  | malformed (emsg : String)
deriving Repr, DecidableEq

/-- Outcome of the `requests.post` + `raise_for_status` + unwrap
sequence.  `httpError` is the `HTTPError` raised by `raise_for_status`,
carrying the non-2xx response (`status` = `response.status_code`,
`body` = `response.text`) and `emsg` = `str(e)`; `connError` is a
`RequestException` with no response attached (connection failure,
timeout), with `emsg` = `str(e)`. -/
inductive HttpOutcome where
  | ok (body : RespBody)
  | httpError (status : Int) (body : String) (emsg : String)
  | connError (emsg : String)
deriving Repr, DecidableEq

/-- The inline dictionary built by the `except (KeyError, IndexError)`
handler of both calls (it has no `status_code` key). -/
def parsingErrorDetail (url msg : String) : ErrorDetail :=
  { url := url, method := "POST", statusCode := none,
    errorType := "Response parsing error", message := msg,
    suggestion := "Check if the API response structure has changed" }

/-- The `except RequestException` handler's gate
`if hasattr(e, "response") and e.response:` — every `RequestException`
has the `response` attribute, `None` is falsy, and a `requests.Response`
is truthy iff `response.ok`, i.e. iff its status code is below 400.
Since `raise_for_status` raises only for statuses at least 400, the
gate is false on every transport fault, and the handler builds
`APIError(url, None, str(e))`: no status code captured. -/
def reqExcResponseTruthy : Option Int → Bool
  | none => false
  | some status => status < 400

/-- The `(result, error_details)` pair computed by `run_completions`
before the `return_error` branch: success leaves `error_details = None`;
a `RequestException` captures an `APIError`'s details — with the
response's status code and text only when the gate
`reqExcResponseTruthy` passes (dead for non-2xx responses), otherwise
with no status code and message `str(e)`; a `KeyError`/`IndexError`
while unwrapping captures the inline parsing-error dictionary. -/
def runCompletionsPair (endpoint : String) (t : HttpOutcome) :
    Option String × Option ErrorDetail :=
  let url := endpoint ++ "/completions"
  match t with
  | .ok (.withText s) => (some s, none)
  | .ok (.malformed emsg) => (none, some (parsingErrorDetail url emsg))
  | .httpError status body emsg =>
    if reqExcResponseTruthy (some status) then
      (none, some (apiErrorDetails url (some status) body "POST"))
    else (none, some (apiErrorDetails url none emsg "POST"))
  | .connError emsg => (none, some (apiErrorDetails url none emsg "POST"))

/-- Same for `run_chat_completions`, whose URL is
`endpoint + "/chat/completions"` and whose success path unwraps
`choices[0].message.content`. -/
def runChatCompletionsPair (endpoint : String) (t : HttpOutcome) :
    Option String × Option ErrorDetail :=
  let url := endpoint ++ "/chat/completions"
  match t with
  | .ok (.withText s) => (some s, none)
  | .ok (.malformed emsg) => (none, some (parsingErrorDetail url emsg))
  | .httpError status body emsg =>
    if reqExcResponseTruthy (some status) then
      (none, some (apiErrorDetails url (some status) body "POST"))
    else (none, some (apiErrorDetails url none emsg "POST"))
  | .connError emsg => (none, some (apiErrorDetails url none emsg "POST"))

/-- A Python function call either returns a value or lets an exception
escape. -/
inductive CallOutcome (α : Type) where
  | returns (v : α)
  | raises (msg : String)
deriving Repr, DecidableEq

/-- What a completion/chat call hands back: the bare result when
`return_error` is false, the `(result, error_details)` pair when true. -/
inductive PyRet where
  | single (r : Option String)
  | pair (r : Option String) (e : Option ErrorDetail)
deriving Repr, DecidableEq

/-- `run_completions`: every transport/parsing failure is caught inside
the function; the trailing `if return_error` decides which shape is
returned.  No path re-raises. -/
def run_completions (endpoint : String) (t : HttpOutcome)
    (returnError : Bool) : CallOutcome PyRet :=
  let (r, e) := runCompletionsPair endpoint t
  if returnError then .returns (.pair r e) else .returns (.single r)

/-- `run_chat_completions`: identical control flow over the chat URL and
chat unwrapping. -/
def run_chat_completions (endpoint : String) (t : HttpOutcome)
    (returnError : Bool) : CallOutcome PyRet :=
  let (r, e) := runChatCompletionsPair endpoint t
  if returnError then .returns (.pair r e) else .returns (.single r)

/-- A transport fault: non-2xx status or connection-level failure. -/
def isTransportFault : HttpOutcome → Prop
  | .ok _ => False
  | .httpError _ _ _ => True
  | .connError _ => True

/-! ## Streaming calls (`gen_ai/openai/stream_model.py`,
`gen_ai/bedrock/stream_model.py`)

A generator's observable behaviour is the list of chunks it yields plus
how it terminates: normal exhaustion or an escaping exception. -/

/-- How a generator terminates. -/
inductive Terminal where
  | normal
  | raisedApiError (statusCode : Option Int) (msg : String)
  | raisedValueError (msg : String)
  | raisedAttributeError
deriving Repr, DecidableEq

/-- A server-sent line after the `data: ` prefix strip, as
`generate_response_stream` discriminates it: blank (skipped), the
`[DONE]` marker (break), undecodable JSON (logged and skipped), a chunk
without usable `choices` (skipped), or a chunk whose first choice
carries a text delta. -/
inductive SseLine where
  | blank
  | done
  | badJson
  | noChoices
  | delta (text : String)
deriving Repr, DecidableEq

/-- The chunk texts yielded from a line sequence by the decode loop of
`generate_response_stream`: stop at `[DONE]`, skip blanks, bad JSON and
chunks without choices, and yield a delta only when non-empty (falsy
empty strings are dropped). -/
def decodeCompletionLines : List SseLine → List String
  | [] => []
  | .blank :: rest => decodeCompletionLines rest
  | .done :: _ => []
  | .badJson :: rest => decodeCompletionLines rest
  | .noChoices :: rest => decodeCompletionLines rest
  | .delta t :: rest =>
    if t = "" then decodeCompletionLines rest
    else t :: decodeCompletionLines rest

/-- A transport-level fault of the `requests` stack: the `HTTPError`
from `raise_for_status` carrying the non-2xx response
(`status`, `body` = `response.text`) with `emsg` = `str(e)`, or a
`RequestException` without a response, with `emsg` = `str(e)`. -/
inductive ReqFault where
  | http (status : Int) (body : String) (emsg : String)
  | conn (emsg : String)
deriving Repr, DecidableEq

/-- What the transport does underneath one streaming call: delivers all
lines, delivers some lines and then raises a `RequestException`, or
raises before any line is delivered. -/
inductive StreamTransport where
  | ok (lines : List SseLine)
  | okPartial (lines : List SseLine) (fault : ReqFault)
  | preFault (fault : ReqFault)
deriving Repr, DecidableEq

/-- The `APIError` raised by the `except RequestException` handler of
`generate_response_stream` for a given fault and endpoint URL.  The
handler's `if hasattr(e, "response") and e.response:` gate is the same
as in `invoke_model.py`: a non-2xx `requests.Response` is falsy
(`Response.__bool__` is `self.ok`), so the status-capturing branch is
dead and every transport fault raises `APIError(url, None, str(e))`. -/
def reqFaultTerminal (url : String) : ReqFault → Terminal
  | .http status body emsg =>
    if reqExcResponseTruthy (some status) then
      .raisedApiError (some status) (apiErrorMsg url (some status) body "POST")
    else .raisedApiError none (apiErrorMsg url none emsg "POST")
  | .conn emsg => .raisedApiError none (apiErrorMsg url none emsg "POST")

/-- `generate_response_stream` as (chunks yielded, termination): a clean
stream decodes to its chunks and ends normally; a `RequestException`
before or during iteration is caught and re-raised as an `APIError`
(after the already-delivered lines have been yielded). -/
def generate_response_stream (endpoint : String) (t : StreamTransport) :
    List String × Terminal :=
  let url := endpoint ++ "/completions"
  match t with
  | .ok lines => (decodeCompletionLines lines, .normal)
  | .okPartial lines fault => (decodeCompletionLines lines, reqFaultTerminal url fault)
  | .preFault fault => ([], reqFaultTerminal url fault)

/-- A Bedrock Converse stream event, as `run_chat_completions_streaming`
discriminates it: a `contentBlockDelta` carrying text, or any other
event (skipped). -/
inductive BrEvent where
  | contentDelta (text : String)
  | otherEvent
deriving Repr, DecidableEq

/-- Texts yielded from the Bedrock event loop. -/
def bedrockChunks (events : List BrEvent) : List String :=
  events.filterMap (fun e => match e with
    | .contentDelta t => some t
    | .otherEvent => none)

/-- What the Bedrock transport does underneath one streaming call:
delivers all events; delivers some and then the stream iteration raises;
`converse_stream` itself raises a `ClientError` (whose `response`
dictionary is either non-empty, hence truthy, or empty); or some other
exception occurs. -/
inductive BedrockTransport where
  | ok (events : List BrEvent)
  | okPartial (events : List BrEvent) (emsg : String)
  | clientError (responseTruthy : Bool)
  | otherError (emsg : String)
deriving Repr, DecidableEq

/-- Bedrock `run_chat_completions_streaming` as (chunks, termination).
A fault during stream iteration is caught by the inner
`except Exception` which logs and `return`s: the generator ends
normally.  A `ClientError` from `converse_stream` reaches the outer
handler, which only logs — except that with a truthy `e.response` it
evaluates `e.response.status_code` on a plain dictionary, raising an
`AttributeError`; with a falsy `e.response` the handler completes and
the generator ends normally, the fault swallowed.  Any other exception
is re-raised as a `ValueError`. -/
def run_chat_completions_streaming (t : BedrockTransport) :
    List String × Terminal :=
  match t with
  | .ok events => (bedrockChunks events, .normal)
  | .okPartial events _ => (bedrockChunks events, .normal)
  | .clientError true => ([], .raisedAttributeError)
  | .clientError false => ([], .normal)
  | .otherError emsg =>
    ([], .raisedValueError ("Failed to process streaming response: " ++ emsg))

/-! ## Batch executor (`gen_ai/openai/batch_api.py`)

`run_completions_batch` submits one `process_single_query(i)` task per
prompt and writes each completed task's `(idx, result, error)` back into
the index-aligned `results`/`errors` lists.  `as_completed` hands back
the futures in an arbitrary order, each exactly once; that order is the
`order` parameter below.  A task either completes with the
`(result, error)` pair of `run_completions(..., return_error=True)` or
crashes, in which case only the error slot is filled with the inline
processing-error dictionary. -/

/-- Outcome of one `process_single_query` task. -/
inductive TaskOutcome where
  | done (r : Option String) (e : Option ErrorDetail)
  | crashed (emsg : String)
deriving Repr, DecidableEq

/-- The inline `"Processing error"` dictionary written when a future (or
a sequential iteration) raises; it has no `url`, `method` or
`status_code` keys. -/
def processingErrorDetail (emsg : String) : ErrorDetail :=
  { url := "", method := "", statusCode := none,
    errorType := "Processing error", message := emsg,
    suggestion := "Check if the query is valid" }

/-- One iteration of the `as_completed` loop: write the completed task's
slots. -/
def batchStep (oc : Nat → TaskOutcome)
    (st : List (Option String) × List (Option ErrorDetail)) (idx : Nat) :
    List (Option String) × List (Option ErrorDetail) :=
  match oc idx with
  | .done r e => (st.1.set idx r, st.2.set idx e)
  | .crashed emsg => (st.1, st.2.set idx (some (processingErrorDetail emsg)))

/-- Batch return shape: bare results, or the (results, errors) pair. -/
inductive PyBatchRet where
  | single (rs : List (Option String))
  | pair (rs : List (Option String)) (es : List (Option ErrorDetail))
deriving Repr, DecidableEq

/-- `run_completions_batch` over `n` prompts whose tasks complete in
`order` with outcomes `oc`: empty input returns empty lists at once;
otherwise `results`/`errors` start as `[None] * n` and each completion
fills its own slots. -/
def run_completions_batch (n : Nat) (oc : Nat → TaskOutcome)
    (order : List Nat) (returnError : Bool) : PyBatchRet :=
  if n = 0 then
    if returnError then .pair [] [] else .single []
  else
    let st := order.foldl (batchStep oc)
      (List.replicate n none, List.replicate n none)
    if returnError then .pair st.1 st.2 else .single st.1

/-- The result slot a task outcome leaves behind (a crash leaves the
initial `None`). -/
def expectedRes : TaskOutcome → Option String
  | .done r _ => r
  | .crashed _ => none

/-- The error slot a task outcome leaves behind. -/
def expectedErr : TaskOutcome → Option ErrorDetail
  | .done _ e => e
  | .crashed emsg => some (processingErrorDetail emsg)

/-! ## Image injection with aliasing (`run_chat_completions`,
`gen_ai/openai/invoke_model.py`)

`run_chat_completions` copies each message with `msg.copy()` — a
shallow dict copy, so the copy's `"content"` key still references the
caller's content object.  To observe this, mutable Python list objects
live in a store addressed by allocation index; a message's content is a
plain (immutable) string, a reference into the store, or some other
shape. -/

/-- An OpenAI-style content block: `{"type": "text", ...}` or
`{"type": "image_url", ...}`. -/
inductive OBlock where
  | text (s : String)
  | imageUrl (url : String)
deriving Repr, DecidableEq

/-- A message's `"content"` value: immutable string, reference to a
mutable list object in the store, or another shape. -/
inductive CVal where
  | str (s : String)
  | listRef (addr : Nat)
  | other
deriving Repr, DecidableEq

/-- A message dictionary for the OpenAI chat shape. -/
structure OMessage where
  role : String
  content : CVal
deriving Repr, DecidableEq

/-- Index of the last `"user"` message, scanning from the end (same loop
as in `format_messages_for_bedrock`). -/
def lastUserIdxO : List OMessage → Option Nat
  | [] => none
  | m :: ms =>
    match lastUserIdxO ms with
    | some i => some (i + 1)
    | none => if m.role = "user" then some 0 else none

/-- The image-injection section of `run_chat_completions`, heap model.
Takes the caller's message list and the store of list objects; returns
the payload-bound message list and the store after the call.  Each
`msg.copy()` shares the original's content reference; converting a
string (or other-shaped) content rebinds the copy's key to a freshly
allocated list; but a content that is already a list keeps the shared
reference, and the image blocks are appended to that shared object. -/
def injectImagesOpenAI (encodeImage : String → String)
    (msgs : List OMessage) (store : List (List OBlock))
    (imagePaths : List String) : List OMessage × List (List OBlock) :=
  if imagePaths = [] then (msgs, store)
  else
    let (ms, store1, idx) : List OMessage × List (List OBlock) × Nat :=
      match lastUserIdxO msgs with
      | some i => (msgs, store, i)
      | none =>
        (msgs ++ [⟨"user", .listRef store.length⟩], store ++ [[.text ""]], msgs.length)
    match ms.get? idx with
    | none => (ms, store1)
    | some m =>
      let (ms2, store2, addr) : List OMessage × List (List OBlock) × Nat :=
        match m.content with
        | .str s =>
          (ms.set idx ⟨m.role, .listRef store1.length⟩, store1 ++ [[.text s]], store1.length)
        | .listRef a => (ms, store1, a)
        | .other =>
          (ms.set idx ⟨m.role, .listRef store1.length⟩, store1 ++ [[.text ""]], store1.length)
      let imgs := imagePaths.map
        (fun p => OBlock.imageUrl ("data:image/jpeg;base64," ++ encodeImage p))
      (ms2, store2.set addr (store2.getD addr [] ++ imgs))

/-- Whether the last message of the list has role `"user"`. -/
def hasTrailingUser (msgs : List BMessage) : Bool :=
  match msgs.getLast? with
  | some m => m.role = "user"
  | none => false

/-! ## Claims -/

/-- C1: the claim fails on the code.  A caller-supplied `stream=False`
keyword survives into the provider payload of both streaming calls,
because `payload.update(kwargs)` runs after `payload["stream"] = True`
— contradicting the source's own comment "Always ensure stream is True
regardless of user settings". -/
theorem C1_stream_false_survives_kwargs :
    dictGet (streamCompletionPayload "model-a" "hello"
      [("stream", JVal.bool false)]) "stream" = some (JVal.bool false) ∧
    dictGet (streamChatPayload "model-a"
      [("stream", JVal.bool false)]) "stream" = some (JVal.bool false) := by
  exact ⟨rfl, rfl⟩

/-- C2 counterexample: with `return_error=False`, a non-2xx status on a
completion call and a connection error on a chat call both make the call
return `None` — nothing is raised, refuting the claim that the fault is
raised to the caller. -/
theorem C2_counterexample_fault_returns_none :
    run_completions "http://h/v1"
      (.httpError 503 "overloaded"
        "503 Server Error: overloaded for url: http://h/v1/completions") false =
      .returns (.single none) ∧
    run_chat_completions "http://h/v1" (.connError "timed out") false =
      .returns (.single none) := by
  exact ⟨rfl, rfl⟩

/-- C2 amended: for every transport fault, a completion or chat call
with `return_error=False` returns `None` and raises nothing.  The fault
is captured into an `ErrorDetail` carrying the URL and method but no
status code: a non-2xx `requests.Response` is falsy, so the handler
always takes the no-response branch and stores `str(e)` as the message,
`"Unknown error"` as the type and the network suggestion.  The detail is
handed back only when `return_error=True`. -/
theorem C2_amended_fault_captured_not_raised :
    ∀ (endpoint body emsg : String) (status : Int),
      run_completions endpoint (.httpError status body emsg) false =
        .returns (.single none) ∧
      run_completions endpoint (.connError emsg) false =
        .returns (.single none) ∧
      run_chat_completions endpoint (.httpError status body emsg) false =
        .returns (.single none) ∧
      run_chat_completions endpoint (.connError emsg) false =
        .returns (.single none) ∧
      (400 ≤ status →
        run_completions endpoint (.httpError status body emsg) true =
          .returns (.pair none (some (apiErrorDetails (endpoint ++ "/completions")
            none emsg "POST"))) ∧
        run_chat_completions endpoint (.httpError status body emsg) true =
          .returns (.pair none (some (apiErrorDetails (endpoint ++ "/chat/completions")
            none emsg "POST")))) ∧
      run_completions endpoint (.connError emsg) true =
        .returns (.pair none (some (apiErrorDetails (endpoint ++ "/completions")
          none emsg "POST"))) ∧
      run_chat_completions endpoint (.connError emsg) true =
        .returns (.pair none (some (apiErrorDetails (endpoint ++ "/chat/completions")
          none emsg "POST"))) ∧
      (apiErrorDetails (endpoint ++ "/completions") none emsg "POST").statusCode = none ∧
      (apiErrorDetails (endpoint ++ "/completions") none emsg "POST").errorType =
        "Unknown error" ∧
      (apiErrorDetails (endpoint ++ "/completions") none emsg "POST").suggestion =
        "Check your network connection and API endpoint URL" := by
  intro endpoint body emsg status
  refine ⟨?_, rfl, ?_, rfl, ?_, rfl, rfl, rfl, rfl, rfl⟩
  · by_cases h : status < 400 <;>
      simp [run_completions, runCompletionsPair, reqExcResponseTruthy, h]
  · by_cases h : status < 400 <;>
      simp [run_chat_completions, runChatCompletionsPair, reqExcResponseTruthy, h]
  · intro h4
    have h : ¬ (status < 400) := by omega
    constructor <;>
      simp [run_completions, run_chat_completions, runCompletionsPair,
        runChatCompletionsPair, reqExcResponseTruthy, h]

/-- C2 witness: the amended behaviour at a concrete 503 fault — the
pair mode hands back the no-status detail. -/
theorem C2_amended_fault_captured_not_raised_witness :
    run_completions "http://h/v1" (.httpError 503 "overloaded" "boom") true =
      .returns (.pair none (some (apiErrorDetails "http://h/v1/completions"
        none "boom" "POST"))) := by
  exact ((C2_amended_fault_captured_not_raised "http://h/v1" "overloaded" "boom"
    503).2.2.2.2.1 (by decide)).1

/-- C3: the claim is right and the code is wrong.  `msg.copy()` is a
shallow copy despite the source comment "Make a deep copy of messages to
avoid modifying the original": when the last user message's content is
already a block list, the image blocks are appended to the caller's own
list object.  At the failing input the caller's content object (store
address 0) grows from one block to two. -/
theorem C3_shared_content_list_mutated :
    (injectImagesOpenAI (fun _ => "QUJD") [⟨"user", CVal.listRef 0⟩]
      [[OBlock.text "hi"]] ["a.jpg"]).1 = [⟨"user", CVal.listRef 0⟩] ∧
    (injectImagesOpenAI (fun _ => "QUJD") [⟨"user", CVal.listRef 0⟩]
      [[OBlock.text "hi"]] ["a.jpg"]).2 =
      [[OBlock.text "hi", OBlock.imageUrl "data:image/jpeg;base64,QUJD"]] := by
  exact ⟨rfl, rfl⟩

/-- C4 counterexample: the Bedrock streaming chat call swallows a
transport fault raised during stream iteration — the already-delivered
chunk is yielded and the generator terminates normally, raising nothing;
likewise a `ClientError` whose error response is empty ends the
generator silently. -/
theorem C4_counterexample_bedrock_swallows_fault :
    run_chat_completions_streaming
      (.okPartial [.contentDelta "partial"] "connection reset") =
      (["partial"], .normal) ∧
    run_chat_completions_streaming (.clientError false) = ([], .normal) := by
  exact ⟨rfl, rfl⟩

/-- C4 amended: the OpenAI-compatible streaming call raises every
transport fault (before or during iteration) as an `APIError` — always
through the no-response branch, with no status code, since a non-2xx
`requests.Response` is falsy; the Bedrock streaming chat call does not:
a fault during stream iteration is swallowed and the chunk sequence
terminates silently, and a `ClientError` from `converse_stream` either
ends the generator silently (empty error response) or raises an
incidental `AttributeError`, never the classified fault. -/
theorem C4_amended_raise_behaviour_per_adapter :
    ∀ (endpoint emsg body : String) (status : Int) (lines : List SseLine)
      (events : List BrEvent),
      (400 ≤ status →
        (generate_response_stream endpoint
          (.preFault (.http status body emsg))).2 =
          .raisedApiError none
            (apiErrorMsg (endpoint ++ "/completions") none emsg "POST") ∧
        (generate_response_stream endpoint
          (.okPartial lines (.http status body emsg))).2 =
          .raisedApiError none
            (apiErrorMsg (endpoint ++ "/completions") none emsg "POST")) ∧
      (generate_response_stream endpoint (.preFault (.conn emsg))).2 =
        .raisedApiError none
          (apiErrorMsg (endpoint ++ "/completions") none emsg "POST") ∧
      (generate_response_stream endpoint (.okPartial lines (.conn emsg))).2 =
        .raisedApiError none
          (apiErrorMsg (endpoint ++ "/completions") none emsg "POST") ∧
      (run_chat_completions_streaming (.okPartial events emsg)).2 = .normal ∧
      run_chat_completions_streaming (.clientError false) = ([], .normal) ∧
      run_chat_completions_streaming (.clientError true) =
        ([], .raisedAttributeError) := by
  intro endpoint emsg body status lines events
  refine ⟨?_, rfl, rfl, rfl, rfl, rfl⟩
  intro h4
  have h : ¬ (status < 400) := by omega
  constructor <;>
    simp [generate_response_stream, reqFaultTerminal, reqExcResponseTruthy, h]

/-- C4 witness: the amended behaviour at a concrete 500 fault before any
chunk — the OpenAI-compatible stream raises the no-status `APIError`. -/
theorem C4_amended_raise_behaviour_per_adapter_witness :
    (generate_response_stream "http://h/v1"
      (.preFault (.http 500 "ise" "boom"))).2 =
      .raisedApiError none
        (apiErrorMsg "http://h/v1/completions" none "boom" "POST") := by
  exact ((C4_amended_raise_behaviour_per_adapter "http://h/v1" "boom" "ise"
    500 [] []).1 (by decide)).1

/-- C9: with `return_error=True` the returned pair never has both
components populated — the success path pairs the text with `None`, and
every captured fault (non-2xx, connection error, parse failure) pairs
`None` with the error details. -/
theorem C9_result_error_mutually_exclusive :
    ∀ (endpoint : String) (t : HttpOutcome),
      ((runCompletionsPair endpoint t).1 = none ∨
        (runCompletionsPair endpoint t).2 = none) ∧
      ((runChatCompletionsPair endpoint t).1 = none ∨
        (runChatCompletionsPair endpoint t).2 = none) ∧
      run_completions endpoint t true =
        .returns (.pair (runCompletionsPair endpoint t).1
          (runCompletionsPair endpoint t).2) ∧
      run_chat_completions endpoint t true =
        .returns (.pair (runChatCompletionsPair endpoint t).1
          (runChatCompletionsPair endpoint t).2) ∧
      (∀ s, runCompletionsPair endpoint (.ok (.withText s)) = (some s, none) ∧
        runChatCompletionsPair endpoint (.ok (.withText s)) = (some s, none)) ∧
      (∀ status body emsg,
        (runCompletionsPair endpoint (.httpError status body emsg)).1 = none ∧
        (runChatCompletionsPair endpoint (.httpError status body emsg)).1 = none) ∧
      (∀ m, (runCompletionsPair endpoint (.connError m)).1 = none ∧
        (runChatCompletionsPair endpoint (.connError m)).1 = none) ∧
      (∀ e, (runCompletionsPair endpoint (.ok (.malformed e))).1 = none ∧
        (runChatCompletionsPair endpoint (.ok (.malformed e))).1 = none) := by
  intro endpoint t
  have hhttp : ∀ status body emsg,
      (runCompletionsPair endpoint (.httpError status body emsg)).1 = none ∧
      (runChatCompletionsPair endpoint (.httpError status body emsg)).1 = none := by
    intro status body emsg
    constructor <;> by_cases h : status < 400 <;>
      simp [runCompletionsPair, runChatCompletionsPair, reqExcResponseTruthy, h]
  refine ⟨?_, ?_, rfl, rfl, fun s => ⟨rfl, rfl⟩, hhttp,
    fun m => ⟨rfl, rfl⟩, fun e => ⟨rfl, rfl⟩⟩
  · match t with
    | .ok (.withText s) => exact Or.inr rfl
    | .ok (.malformed e) => exact Or.inl rfl
    | .httpError status body emsg => exact Or.inl (hhttp status body emsg).1
    | .connError m => exact Or.inl rfl
  · match t with
    | .ok (.withText s) => exact Or.inr rfl
    | .ok (.malformed e) => exact Or.inl rfl
    | .httpError status body emsg => exact Or.inl (hhttp status body emsg).2
    | .connError m => exact Or.inl rfl

/-- C10: an `APIError` with `status_code = 0` is classified exactly like
one with an absent status code — `"Unknown error"`, the network
suggestion, and an exception message with no status-code segment — since
`if not self.status_code` treats `0` as falsy. -/
theorem C10_status_zero_like_absent :
    getErrorType (some 0) = "Unknown error" ∧
    getSuggestion (some 0) = "Check your network connection and API endpoint URL" ∧
    (∀ url msg method, apiErrorMsg url (some 0) msg method =
      apiErrorMsg url none msg method) ∧
    apiErrorMsg "http://x" (some 0) "" "POST" =
      "API POST request to 'http://x' failed. Check your network connection and API endpoint URL" := by
  exact ⟨rfl, rfl, fun url msg method => rfl, rfl⟩

/-- C5 counterexample: `501` is outside the `ERROR_CODES` table, yet its
suggestion is the non-empty server-error hint (the claim demands the
empty string there); and `0`, also outside the table, is classified
`"Unknown error"` rather than `"HTTP Error 0"`. -/
theorem C5_counterexample_501_and_0 :
    List.lookup (501 : Int) ERROR_CODES = none ∧
    getSuggestion (some 501) = "Try again later or contact the API provider" ∧
    getErrorType (some 0) = "Unknown error" := by
  exact ⟨by decide, rfl, rfl⟩

/-- C5 amended: every code in the fixed table gets its documented error
type and a non-empty suggestion; a non-zero code outside the table gets
`"HTTP Error {code}"` with an empty suggestion when below 500 and the
server-error suggestion when at least 500; an absent status code (and
likewise `0`) is the network/connection case. -/
theorem C5_amended_classification :
    (∀ p : Int × String, p ∈ ERROR_CODES →
      getErrorType (some p.1) = p.2 ∧ 0 < (getSuggestion (some p.1)).length) ∧
    (∀ c : Int, c ≠ 0 → ERROR_CODES.lookup c = none →
      getErrorType (some c) = "HTTP Error " ++ toString c ∧
      (c < 500 → getSuggestion (some c) = "") ∧
      (500 ≤ c → getSuggestion (some c) =
        "Try again later or contact the API provider")) ∧
    getErrorType none = "Unknown error" ∧
    getSuggestion none = "Check your network connection and API endpoint URL" := by
  refine ⟨?_, ?_, rfl, rfl⟩
  · intro p hp
    fin_cases hp <;> exact ⟨rfl, by decide⟩
  · intro c hc hlook
    have hTrue : statusTruthy (some c) = true := by
      simp [statusTruthy, hc]
    have h400 : c ≠ 400 := by
      rintro rfl; exact absurd hlook (by decide)
    have h401 : c ≠ 401 := by
      rintro rfl; exact absurd hlook (by decide)
    have h403 : c ≠ 403 := by
      rintro rfl; exact absurd hlook (by decide)
    have h404 : c ≠ 404 := by
      rintro rfl; exact absurd hlook (by decide)
    have h429 : c ≠ 429 := by
      rintro rfl; exact absurd hlook (by decide)
    refine ⟨?_, ?_, ?_⟩
    · simp [getErrorType, hTrue, hlook]
    · intro hlt
      have hnot : ¬ (500 ≤ c) := by omega
      simp [getSuggestion, hTrue, h400, h401, h403, h404, h429, hnot]
    · intro hge
      simp [getSuggestion, hTrue, h400, h401, h403, h404, h429, hge]

/-- C5 witness: the amended classification applied to the table entry
`429` and to the out-of-table codes `418` and `501`. -/
theorem C5_amended_classification_witness :
    getErrorType (some 429) =
      "Too Many Requests - Rate limit exceeded, try again later" ∧
    getSuggestion (some 418) = "" ∧
    getSuggestion (some 501) = "Try again later or contact the API provider" := by
  refine ⟨?_, ?_, ?_⟩
  · exact (C5_amended_classification.1
      (429, "Too Many Requests - Rate limit exceeded, try again later")
      (by decide)).1
  · exact ((C5_amended_classification.2.1 418 (by decide) (by decide)).2.1 (by decide))
  · exact ((C5_amended_classification.2.1 501 (by decide) (by decide)).2.2 (by decide))

/-- A path lands in `missing_images` exactly when it is in the input
and either does not exist or is not a regular file. -/
lemma mem_missingImages (fsE fsF : String → Bool) (paths : List String) (q : String) :
    q ∈ missingImages fsE fsF paths ↔
      q ∈ paths ∧ (fsE q = false ∨ fsF q = false) := by
  unfold missingImages
  rw [List.mem_filter]
  refine and_congr_right fun _ => ?_
  cases hE : fsE q <;> cases hF : fsF q <;> simp [hE, hF]

/-- C7: when every path exists and is a regular file,
`validate_image_paths` returns its input unchanged (hence applying it
twice yields the same list); when some path is missing or not a regular
file, it fails with a `FileNotFoundError` whose message lists all the
offending paths — membership in the listed `missing_images` is exactly
"in the input and missing or not a regular file". -/
theorem C7_validate_image_paths_all_or_error :
    ∀ (fsE fsF : String → Bool) (paths : List String),
      ((∀ p ∈ paths, fsE p = true ∧ fsF p = true) →
        validate_image_paths fsE fsF paths = .ok paths ∧
        (validate_image_paths fsE fsF paths).bind (validate_image_paths fsE fsF) =
          .ok paths) ∧
      ((∃ p, p ∈ paths ∧ (fsE p = false ∨ fsF p = false)) →
        validate_image_paths fsE fsF paths =
          .error ("The following image files were not found: " ++
            String.intercalate ", " (missingImages fsE fsF paths)) ∧
        ∀ q, q ∈ missingImages fsE fsF paths ↔
          q ∈ paths ∧ (fsE q = false ∨ fsF q = false)) := by
  intro fsE fsF paths
  constructor
  · intro hall
    have hmiss : missingImages fsE fsF paths = [] := by
      apply List.filter_eq_nil_iff.mpr
      intro p hp
      have := hall p hp
      simp [this.1, this.2]
    have hok : validate_image_paths fsE fsF paths = .ok paths := by
      by_cases hp : paths = []
      · subst hp; rfl
      · simp [validate_image_paths, hp, hmiss]
    refine ⟨hok, ?_⟩
    rw [hok]
    simpa [Except.bind] using hok
  · rintro ⟨p, hp, hbad⟩
    have hmem : p ∈ missingImages fsE fsF paths :=
      (mem_missingImages fsE fsF paths p).mpr ⟨hp, hbad⟩
    have hne : missingImages fsE fsF paths ≠ [] := List.ne_nil_of_mem hmem
    have hpaths : paths ≠ [] := List.ne_nil_of_mem hp
    refine ⟨?_, fun q => mem_missingImages fsE fsF paths q⟩
    simp only [validate_image_paths, if_neg hpaths, if_neg hne]

/-- C7 witness: the spec's own example — only `a.jpg` exists, the fault
lists both missing names; and a fully valid singleton list is returned
unchanged. -/
theorem C7_validate_image_paths_witness :
    validate_image_paths (fun p => p == "a.jpg") (fun p => p == "a.jpg")
      ["a.jpg", "missing.jpg", "also_missing.png"] =
      .error "The following image files were not found: missing.jpg, also_missing.png" ∧
    validate_image_paths (fun _ => true) (fun _ => true) ["a.jpg"] = .ok ["a.jpg"] := by
  constructor
  · have h := (C7_validate_image_paths_all_or_error (fun p => p == "a.jpg")
      (fun p => p == "a.jpg") ["a.jpg", "missing.jpg", "also_missing.png"]).2
      ⟨"missing.jpg", by simp, Or.inl (by decide)⟩
    rw [h.1]
    rfl
  · exact ((C7_validate_image_paths_all_or_error (fun _ => true) (fun _ => true)
      ["a.jpg"]).1 (fun p _ => ⟨rfl, rfl⟩)).1

/-- The index found by the backwards user-message scan points at a
`"user"` message of the list. -/
lemma lastUserIdx_get (msgs : List BMessage) (i : Nat) :
    lastUserIdx msgs = some i → ∃ m, msgs.get? i = some m ∧ m.role = "user" := by
  induction msgs generalizing i with
  | nil => intro h; simp [lastUserIdx] at h
  | cons m ms ih =>
    intro h
    simp only [lastUserIdx] at h
    cases hrec : lastUserIdx ms with
    | some j =>
      rw [hrec] at h
      obtain ⟨m', hm', hrole⟩ := ih j hrec
      injection h with h
      subst h
      exact ⟨m', by simpa using hm', hrole⟩
    | none =>
      rw [hrec] at h
      by_cases hr : m.role = "user"
      · rw [if_pos hr] at h
        injection h with h
        subst h
        exact ⟨m, rfl, hr⟩
      · rw [if_neg hr] at h
        cases h

/-- C8 counterexample: `[user, assistant]` has no trailing user message,
yet image injection appends no new message — the images attach to the
earlier user message and the list keeps its length, where the claim
demands that exactly one new user message be appended. -/
theorem C8_counterexample_no_append_when_user_not_last :
    hasTrailingUser [⟨"user", .str "hi"⟩, ⟨"assistant", .str "yo"⟩] = false ∧
    format_messages_for_bedrock (fun _ => [7])
      [⟨"user", .str "hi"⟩, ⟨"assistant", .str "yo"⟩] ["a.jpg"] =
      [⟨"user", .blocks [.text "hi", .image "jpeg" [7]]⟩,
        ⟨"assistant", .str "yo"⟩] := by
  exact ⟨rfl, rfl⟩

/-- C8 amended: when the list contains no user message at all, exactly
one new user message is appended and the images attach to it; otherwise
the images attach to the last user message, whose content — when a plain
string — becomes a content-block list whose first element carries the
original text; exactly one image block per path is appended, in input
order, and no other message changes. -/
theorem C8_amended_injection_shape :
    ∀ (rf : String → List Nat) (msgs : List BMessage) (paths : List String),
      paths ≠ [] →
      (lastUserIdx msgs = none →
        format_messages_for_bedrock rf msgs paths =
          msgs ++ [⟨"user", .blocks (.text "" ::
            paths.map (fun p => .image "jpeg" (rf p)))⟩]) ∧
      (∀ i m, lastUserIdx msgs = some i → msgs.get? i = some m →
        m.role = "user" ∧
        format_messages_for_bedrock rf msgs paths =
          msgs.set i ⟨m.role, .blocks (normalizeBedrockContent m.content ++
            paths.map (fun p => .image "jpeg" (rf p)))⟩ ∧
        ∀ s, m.content = .str s →
          normalizeBedrockContent m.content = [.text s]) := by
  intro rf msgs paths hpaths
  constructor
  · intro hnone
    simp only [format_messages_for_bedrock, if_neg hpaths, hnone]
    simp [normalizeBedrockContent]
  · intro i m hidx hm
    obtain ⟨m', hm', hrole⟩ := lastUserIdx_get msgs i hidx
    have : m' = m := by rw [hm] at hm'; exact (Option.some.inj hm').symm
    subst this
    refine ⟨hrole, ?_, fun s hs => by rw [hs]; rfl⟩
    simp only [format_messages_for_bedrock, if_neg hpaths, hidx, hm]

/-- C8 witness: the amended shape at a list with no user message (one
appended, image attached) and at a single user message with string
content (normalized, image appended). -/
theorem C8_amended_injection_shape_witness :
    format_messages_for_bedrock (fun _ => [7])
      [⟨"assistant", .str "yo"⟩] ["a.jpg"] =
      [⟨"assistant", .str "yo"⟩,
        ⟨"user", .blocks [.text "", .image "jpeg" [7]]⟩] ∧
    format_messages_for_bedrock (fun _ => [7])
      [⟨"user", .str "hi"⟩] ["a.jpg"] =
      [⟨"user", .blocks [.text "hi", .image "jpeg" [7]]⟩] := by
  constructor
  · have h := (C8_amended_injection_shape (fun _ => [7])
      [⟨"assistant", .str "yo"⟩] ["a.jpg"] (by decide)).1 rfl
    rw [h]
    rfl
  · have h := (C8_amended_injection_shape (fun _ => [7])
      [⟨"user", .str "hi"⟩] ["a.jpg"] (by decide)).2 0 ⟨"user", .str "hi"⟩ rfl rfl
    rw [h.2.1]
    rfl

/-- One batch step keeps both lists' lengths. -/
lemma batchStep_lengths (oc : Nat → TaskOutcome)
    (st : List (Option String) × List (Option ErrorDetail)) (idx : Nat) :
    (batchStep oc st idx).1.length = st.1.length ∧
    (batchStep oc st idx).2.length = st.2.length := by
  cases h : oc idx <;> simp [batchStep, h]

/-- The whole completion loop keeps both lists' lengths. -/
lemma batchFold_lengths (oc : Nat → TaskOutcome) (order : List Nat) :
    ∀ st, (order.foldl (batchStep oc) st).1.length = st.1.length ∧
      (order.foldl (batchStep oc) st).2.length = st.2.length := by
  induction order with
  | nil => intro st; exact ⟨rfl, rfl⟩
  | cons j rest ih =>
    intro st
    have h1 := batchStep_lengths oc st j
    have h2 := ih (batchStep oc st j)
    simp only [List.foldl_cons]
    exact ⟨h2.1.trans h1.1, h2.2.trans h1.2⟩

/-- A slot whose index never completes in `order` is left as it was. -/
lemma batchFold_untouched (oc : Nat → TaskOutcome) (order : List Nat)
    (i : Nat) (hi : i ∉ order) :
    ∀ st, (order.foldl (batchStep oc) st).1[i]? = st.1[i]? ∧
      (order.foldl (batchStep oc) st).2[i]? = st.2[i]? := by
  induction order with
  | nil => intro st; exact ⟨rfl, rfl⟩
  | cons j rest ih =>
    intro st
    have hij : j ≠ i := fun h => hi (h ▸ List.mem_cons_self j rest)
    have hrest : i ∉ rest := fun h => hi (List.mem_cons_of_mem j h)
    have step1 : (batchStep oc st j).1[i]? = st.1[i]? := by
      cases h : oc j <;> simp [batchStep, h, List.getElem?_set_ne hij]
    have step2 : (batchStep oc st j).2[i]? = st.2[i]? := by
      cases h : oc j <;> simp [batchStep, h, List.getElem?_set_ne hij]
    have h2 := ih hrest (batchStep oc st j)
    simp only [List.foldl_cons]
    exact ⟨h2.1.trans step1, h2.2.trans step2⟩

/-- A slot whose index completes exactly once in `order`, starting from
`None`, ends up holding exactly its own task's outcome — regardless of
where in the order it completes. -/
lemma batchFold_written (oc : Nat → TaskOutcome) (order : List Nat) :
    ∀ (i : Nat) st, order.Nodup → i ∈ order →
      st.1[i]? = some none → st.2[i]? = some none →
      (order.foldl (batchStep oc) st).1[i]? = some (expectedRes (oc i)) ∧
      (order.foldl (batchStep oc) st).2[i]? = some (expectedErr (oc i)) := by
  induction order with
  | nil => intro i st _ h; cases h
  | cons j rest ih =>
    intro i st hnd hmem h1 h2
    have hlt1 : i < st.1.length := by
      by_contra hge
      rw [List.getElem?_eq_none (by omega)] at h1
      cases h1
    have hlt2 : i < st.2.length := by
      by_contra hge
      rw [List.getElem?_eq_none (by omega)] at h2
      cases h2
    simp only [List.foldl_cons]
    by_cases hj : j = i
    · subst hj
      have hrest : j ∉ rest := (List.nodup_cons.mp hnd).1
      have hstep1 : (batchStep oc st j).1[j]? = some (expectedRes (oc j)) := by
        cases h : oc j with
        | done r e => simp [batchStep, h, expectedRes, List.getElem?_set_eq_of_lt _ hlt1]
        | crashed emsg => simpa [batchStep, h, expectedRes] using h1
      have hstep2 : (batchStep oc st j).2[j]? = some (expectedErr (oc j)) := by
        cases h : oc j with
        | done r e => simp [batchStep, h, expectedErr, List.getElem?_set_eq_of_lt _ hlt2]
        | crashed emsg => simp [batchStep, h, expectedErr, List.getElem?_set_eq_of_lt _ hlt2]
      have hu := batchFold_untouched oc rest j hrest (batchStep oc st j)
      exact ⟨hu.1.trans hstep1, hu.2.trans hstep2⟩
    · have hmem2 : i ∈ rest := by
        cases List.mem_cons.mp hmem with
        | inl h => exact absurd h.symm hj
        | inr h => exact h
      have hnd2 : rest.Nodup := (List.nodup_cons.mp hnd).2
      have h1a : (batchStep oc st j).1[i]? = some none := by
        cases h : oc j <;> simp [batchStep, h, List.getElem?_set_ne hj, h1]
      have h2a : (batchStep oc st j).2[i]? = some none := by
        cases h : oc j <;> simp [batchStep, h, List.getElem?_set_ne hj, h2]
      exact ih i (batchStep oc st j) hnd2 hmem2 h1a h2a

/-- C6: for any number of prompts and any completion order that attempts
every prompt exactly once (which is what `as_completed` over one future
per prompt provides), the batch call returns result and error lists of
the input's length where slot `i` holds exactly prompt `i`'s outcome —
a crash on one task fills only that task's error slot and leaves sibling
slots untouched. -/
theorem C6_batch_index_aligned :
    ∀ (n : Nat) (oc : Nat → TaskOutcome) (order : List Nat),
      order.Nodup → (∀ i, i ∈ order ↔ i < n) →
      ∃ rs es, run_completions_batch n oc order true = .pair rs es ∧
        run_completions_batch n oc order false = .single rs ∧
        rs.length = n ∧ es.length = n ∧
        ∀ i, i < n → rs[i]? = some (expectedRes (oc i)) ∧
          es[i]? = some (expectedErr (oc i)) := by
  intro n oc order hnd hperm
  by_cases hn : n = 0
  · subst hn
    have horder : order = [] := by
      cases order with
      | nil => rfl
      | cons j rest => exact absurd ((hperm j).mp (List.mem_cons_self j rest)) (by omega)
    subst horder
    exact ⟨[], [], rfl, rfl, rfl, rfl, fun i hi => absurd hi (by omega)⟩
  · refine ⟨(order.foldl (batchStep oc)
      (List.replicate n none, List.replicate n none)).1,
      (order.foldl (batchStep oc)
        (List.replicate n none, List.replicate n none)).2, ?_, ?_, ?_, ?_, ?_⟩
    · simp [run_completions_batch, hn]
    · simp [run_completions_batch, hn]
    · exact (batchFold_lengths oc order _).1.trans (by simp)
    · exact (batchFold_lengths oc order _).2.trans (by simp)
    · intro i hi
      refine batchFold_written oc order i _ hnd ((hperm i).mpr hi) ?_ ?_ <;>
        simp [hi]

/-- C6 witness: three prompts completing in the order `[2, 0, 1]` with
the middle one crashing — the outcome is index-aligned with only slot 1
holding the processing error. -/
theorem C6_batch_index_aligned_witness :
    ∃ rs es, run_completions_batch 3
        (fun i => if i = 1 then TaskOutcome.crashed "boom"
          else TaskOutcome.done (some "ok") none) [2, 0, 1] true = .pair rs es ∧
      run_completions_batch 3
        (fun i => if i = 1 then TaskOutcome.crashed "boom"
          else TaskOutcome.done (some "ok") none) [2, 0, 1] false = .single rs ∧
      rs.length = 3 ∧ es.length = 3 ∧
      ∀ i, i < 3 → rs[i]? = some (expectedRes
          ((fun i => if i = 1 then TaskOutcome.crashed "boom"
            else TaskOutcome.done (some "ok") none) i)) ∧
        es[i]? = some (expectedErr
          ((fun i => if i = 1 then TaskOutcome.crashed "boom"
            else TaskOutcome.done (some "ok") none) i)) := by
  refine C6_batch_index_aligned 3 _ [2, 0, 1] (by decide) ?_
  intro i
  simp only [List.mem_cons, List.not_mem_nil, or_false]
  omega
